import Mathlib

/-!
Verification of the express-render real-time location-tracking backend.

The repository has two variants of the server:
* the simplified variant (`src/unnamed/part_000`): the `update_position`
  socket handler writes the sample's coordinates into the in-memory record
  `dataInMemory` keyed by the payload's `userId`; the broadcast of
  `palete_movimentado` is commented out; `POST /api/admin/resetar` emits
  `erro_sistema` to every connected socket via `io.emit` and answers
  `{ok: true}`;
* the richer variant (`src/src/server.ts`): the `update_position` socket
  handler inserts the sample into the Supabase table `coordinates` (the
  Durable Sink) inside a `try/catch`; a returned error object is logged with
  `console.error("Erro ao salvar coordenada:", ...)`, a thrown exception is
  caught and logged with `console.error("Erro interno ao salvar:", ...)`;
  `dataInMemory` is declared but never written.

Both handlers are embedded below as pure state-passing functions; the
socket.io connection registry is modelled as the list of connected socket
ids, and the external Durable Sink as an oracle outcome (`SinkOutcome`)
decided by the environment per call.
-/

namespace ExpressRender

/-- Coordinates as stored in `dataInMemory` by the simplified variant:
`{ lat: data.lat, lng: data.lng }`. Latitude/longitude are JS numbers;
the code only stores and copies them, so they are modelled as rationals. -/
structure Coord where
  lat : Rat
  lng : Rat
deriving DecidableEq, Repr

/-- Payload of the `update_position` client event in the simplified variant:
`{ userId: string, lat: number, lng: number }`. -/
structure RawSample where
  userId : String
  lat : Rat
  lng : Rat
deriving DecidableEq, Repr

/-- Socket ids are process-unique opaque strings (socket.io `socket.id`). -/
abbrev SocketId := String

/-- Server-to-client events (`ServerToClientEvents` in both variants). -/
inductive ServerMsg where
  | palete_movimentado (id : String) (lat lng : Rat)
  | erro_sistema (msg : String)
deriving DecidableEq, Repr

/-- One message delivered to one connected socket. -/
structure Delivery where
  target : SocketId
  msg : ServerMsg
deriving DecidableEq, Repr

/-- State of the simplified variant (`src/unnamed/part_000`):
`dataInMemory` is the process-wide record at line 43; `socketData` models
`socket.data` (the `SocketData` interface declares `userId` but no handler
ever assigns it, so it stays unset); `connected` is socket.io's set of live
connections, which `io.emit` iterates. -/
structure SimpleState where
  dataInMemory : String → Option Coord
  socketData : SocketId → Option String
  connected : List SocketId

/-- Process start: empty record, no socket data, no connections. -/
def simpleInit : SimpleState :=
  { dataInMemory := fun _ => none
    socketData := fun _ => none
    connected := [] }

/-- Events driving the simplified variant's socket layer. -/
inductive SimpleEvent where
  | connect (sid : SocketId)
  | update_position (sid : SocketId) (data : RawSample)
  | disconnect (sid : SocketId)
deriving DecidableEq, Repr

/-- The `update_position` handler body of the simplified variant
(part_000 lines 70-85): `dataInMemory[`${data.userId}`] = { lat: data.lat,
lng: data.lng }`. No authentication check, no validation, and the
`socket.broadcast.emit("palete_movimentado", ...)` line is commented out,
so nothing is emitted. -/
def update_position_simple (st : SimpleState) (data : RawSample) : SimpleState :=
  { st with
    dataInMemory := fun k =>
      if k = data.userId then some { lat := data.lat, lng := data.lng }
      else st.dataInMemory k }

/-- One step of the simplified variant: the connection/disconnect
bookkeeping is socket.io's (the source handlers only log), the
`update_position` body is `update_position_simple`. Returns the next state
and the messages emitted to clients during the step. -/
def simpleStep (st : SimpleState) (ev : SimpleEvent) : SimpleState × List Delivery :=
  match ev with
  | .connect sid => ({ st with connected := st.connected ++ [sid] }, [])
  | .update_position _ data => (update_position_simple st data, [])
  | .disconnect sid =>
      ({ st with connected := st.connected.filter (fun c => c ≠ sid) }, [])

/-- Run the simplified variant from process start over a list of events,
keeping the final state. -/
def simpleRun (evs : List SimpleEvent) : SimpleState :=
  evs.foldl (fun st ev => (simpleStep st ev).1) simpleInit

/-- Response body of `POST /api/admin/resetar`: `res.json({ ok: true })`. -/
structure ResetResponse where
  ok : Bool
deriving DecidableEq, Repr

/-- The string broadcast by the resetar route (part_000 line 105). -/
def resetarMsg : String := "Sistema reiniciando, aguarde..."

/-- The `POST /api/admin/resetar` handler (part_000 lines 103-107):
`io.emit("erro_sistema", "Sistema reiniciando, aguarde...")` delivers the
event to every currently connected socket, then the route answers
`{ok: true}`. State is unchanged. -/
def resetar (st : SimpleState) : SimpleState × List Delivery × ResetResponse :=
  (st,
   st.connected.map (fun c => { target := c, msg := .erro_sistema resetarMsg }),
   { ok := true })

/-- Modelled from the spec: the source contains no validation at all, so
validity of a `PositionSample` is taken from the spec's data model, which
gives latitude range [-90,90] and longitude range [-180,180]. -/
def validSample (s : RawSample) : Bool :=
  (-90 ≤ s.lat && s.lat ≤ 90) && (-180 ≤ s.lng && s.lng ≤ 180)

/-- Payload of `update_position` in the richer variant
(`{ userId: number, lat: number, lng: number, tripId: string }`). -/
structure RichSample where
  userId : Int
  tripId : String
  lat : Rat
  lng : Rat
deriving DecidableEq, Repr

/-- One row handed to `supabase.from('coordinates').insert({...})`
(server.ts lines 205-212). -/
structure SinkCall where
  user_id : Int
  trip_id : String
  lat : Rat
  lng : Rat
deriving DecidableEq, Repr

/-- Outcome of one Durable Sink insert, decided by the environment:
the awaited call resolves with no error, resolves with an `error` object
carrying a message, or throws. -/
inductive SinkOutcome where
  | ok
  | errValue (msg : String)
  | thrown (msg : String)
deriving DecidableEq, Repr

/-- The `console.log`/`console.error` lines of the richer variant's
`update_position` handler. -/
inductive LogEntry where
  | recebido (data : RichSample)
  | erroAoSalvarCoordenada (msg : String)
  | erroInternoAoSalvar (msg : String)
deriving DecidableEq, Repr

/-- Observable effects of one run of the richer `update_position` handler:
sink inserts issued, console lines, and socket events emitted. -/
structure HandlerTrace where
  sinkCalls : List SinkCall
  logs : List LogEntry
  emits : List ServerMsg
deriving DecidableEq, Repr

/-- Model of `await supabase.from('coordinates').insert(call)`: the insert is issued
(recorded in the trace) and then, per the environment's outcome, resolves
with `none`, resolves with `some` error message, or throws (`Except.error`). -/
def supabaseInsert (oc : SinkOutcome) (call : SinkCall) (tr : HandlerTrace) :
    HandlerTrace × Except String (Option String) :=
  let tr2 := { tr with sinkCalls := tr.sinkCalls ++ [call] }
  match oc with
  | .ok => (tr2, .ok none)
  | .errValue m => (tr2, .ok (some m))
  | .thrown m => (tr2, .error m)

/-- The `update_position` handler of the richer variant (server.ts lines
201-223): log the payload, `try` one sink insert; if the resolved value
carries an error, log it; if the insert throws, the `catch` logs it. The
handler ends normally in every case (`Except.ok ()`); a result of
`Except.error` would model an exception escaping to the socket layer. -/
def update_position_rich (data : RichSample) (oc : SinkOutcome) :
    HandlerTrace × Except String Unit :=
  let tr0 : HandlerTrace := { sinkCalls := [], logs := [.recebido data], emits := [] }
  let call : SinkCall :=
    { user_id := data.userId, trip_id := data.tripId, lat := data.lat, lng := data.lng }
  match supabaseInsert oc call tr0 with
  | (tr1, .ok none) => (tr1, .ok ())
  | (tr1, .ok (some m)) =>
      ({ tr1 with logs := tr1.logs ++ [.erroAoSalvarCoordenada m] }, .ok ())
  | (tr1, .error e) =>
      ({ tr1 with logs := tr1.logs ++ [.erroInternoAoSalvar e] }, .ok ())

/-- Server state of the richer variant: `dataInMemory` (server.ts line 32,
declared and never written by any route or socket handler) and socket.io's
live-connection set. -/
structure RichState where
  dataInMemory : String → Option Coord
  connected : List SocketId

/-- Process start of the richer variant. -/
def richInit : RichState :=
  { dataInMemory := fun _ => none, connected := [] }

/-- Events driving the richer variant's socket layer; an `update_position`
event carries the environment's outcome for the sink insert it triggers. -/
inductive RichEvent where
  | connect (sid : SocketId)
  | update_position (sid : SocketId) (data : RichSample) (oc : SinkOutcome)
  | disconnect (sid : SocketId)

/-- One step of the richer variant: `update_position` runs
`update_position_rich`, whose effects are all external (sink, console),
so the server state it returns is the one it received; connect/disconnect
maintain socket.io's registry. -/
def richStep (st : RichState) (ev : RichEvent) : RichState × HandlerTrace :=
  match ev with
  | .connect sid =>
      ({ st with connected := st.connected ++ [sid] }, ⟨[], [], []⟩)
  | .update_position _ data oc => (st, (update_position_rich data oc).1)
  | .disconnect sid =>
      ({ st with connected := st.connected.filter (fun c => c ≠ sid) }, ⟨[], [], []⟩)

/-- Run the richer variant from process start, keeping the final state. -/
def richRun (evs : List RichEvent) : RichState :=
  evs.foldl (fun st ev => (richStep st ev).1) richInit

/-- The coordinates of the last `update_position` event for user `u` in a
list of events, if any: the specification-level characterization of the
cache entry for `u` (replaced whole on each sample, absent when no sample
for `u` was ever ingested). -/
def lastCoordFor (evs : List SimpleEvent) (u : String) : Option Coord :=
  evs.foldl
    (fun acc ev =>
      match ev with
      | .update_position _ data =>
          if u = data.userId then some { lat := data.lat, lng := data.lng } else acc
      | _ => acc)
    none

/-- Whether some event in `evs` ingests a sample for user `u` that is valid
in the spec's sense (`validSample`). -/
def ingestedValidFor (evs : List SimpleEvent) (u : String) : Bool :=
  evs.any fun ev =>
    match ev with
    | .update_position _ data => u = data.userId && validSample data
    | _ => false

/-- The deliveries of a broadcast that reach socket `c`. -/
def deliveriesTo (ds : List Delivery) (c : SocketId) : List Delivery :=
  ds.filter (fun d => d.target == c)

/-- A concrete two-event run: one connection, then a single `update_position`
carrying a latitude of 91Rat (outside the spec's valid range). -/
def cexEvents : List SimpleEvent :=
  [.connect "s1", .update_position "s1" { userId := "u1", lat := 91, lng := 20 }]

/-- A concrete server state with two connected sockets. -/
def twoClientsState : SimpleState :=
  { dataInMemory := fun _ => none
    socketData := fun _ => none
    connected := ["a", "b"] }

/-! ## Theorems about the simplified variant's ingest path -/

/-- C1: for two samples with the same userId ingested one after the other
(both valid in the spec's sense), the cache entry for that userId afterwards
holds the second sample's coordinates: the later arrival unconditionally
replaces the earlier one. The payload carries no timestamp at all, so the
replacement cannot depend on one. -/
theorem claim_last_arrival_wins (st : SimpleState) (sid1 sid2 : SocketId)
    (s1 s2 : RawSample) (hu : s1.userId = s2.userId)
    (hv1 : validSample s1 = true) (hv2 : validSample s2 = true) :
    (simpleStep (simpleStep st (.update_position sid1 s1)).1
        (.update_position sid2 s2)).1.dataInMemory s2.userId
      = some { lat := s2.lat, lng := s2.lng } := by
  simp [simpleStep, update_position_simple]

theorem claim_last_arrival_wins_witness :
    (simpleStep (simpleStep simpleInit
          (.update_position "a" { userId := "u1", lat := 10, lng := 20 })).1
        (.update_position "b" { userId := "u1", lat := 11, lng := 21 })).1.dataInMemory "u1"
      = some { lat := 11, lng := 21 } :=
  claim_last_arrival_wins simpleInit "a" "b"
    { userId := "u1", lat := 10, lng := 20 }
    { userId := "u1", lat := 11, lng := 21 } rfl (by decide) (by decide)

/-- C2 fails on the code: on a connection whose socket data carries no user
id (as all do at process start, since no handler ever assigns it), ingesting
a sample does mutate the cache, contradicting the claimed rejection. -/
theorem claim_not_authenticated_counterexample :
    simpleInit.socketData "s1" = none ∧
    (simpleStep simpleInit
        (.update_position "s1" { userId := "u1", lat := 10, lng := 20 })).1.dataInMemory "u1"
      ≠ simpleInit.dataInMemory "u1" := by
  decide

/-- C2 amended: neither variant performs any authentication check and no
`NotAuthenticated` result exists; even on a connection with no associated
user id, the simplified variant updates the cache under the payload's
userId and the richer variant issues its one Durable Sink insert. -/
theorem claim_no_auth_check_amended (st : SimpleState) (sid : SocketId)
    (s : RawSample) (h : st.socketData sid = none)
    (data : RichSample) (oc : SinkOutcome) :
    (simpleStep st (.update_position sid s)).1.dataInMemory s.userId
        = some { lat := s.lat, lng := s.lng } ∧
    ((update_position_rich data oc).1.sinkCalls).length = 1 := by
  constructor
  · simp [simpleStep, update_position_simple]
  · cases oc <;> rfl

theorem claim_no_auth_check_amended_witness :
    (simpleStep simpleInit
        (.update_position "s1" { userId := "u1", lat := 10, lng := 20 })).1.dataInMemory "u1"
      = some { lat := 10, lng := 20 } ∧
    ((update_position_rich { userId := 7, tripId := "t1", lat := 10, lng := 20 }
        .ok).1.sinkCalls).length = 1 :=
  claim_no_auth_check_amended simpleInit "s1"
    { userId := "u1", lat := 10, lng := 20 } rfl
    { userId := 7, tripId := "t1", lat := 10, lng := 20 } .ok

/-- C3 fails on the code: a sample with latitude 91, invalid per the spec's
range, is ingested anyway and changes the cache; no `InvalidSample`
rejection exists anywhere in the source. -/
theorem claim_invalid_latitude_counterexample :
    validSample { userId := "u1", lat := 91, lng := 20 } = false ∧
    (simpleStep simpleInit
        (.update_position "s1" { userId := "u1", lat := 91, lng := 20 })).1.dataInMemory "u1"
      ≠ simpleInit.dataInMemory "u1" := by
  decide

/-- C3 amended: the code performs no range validation and defines no
`InvalidSample` result: a sample with latitude 91 is ingested like any
other — the simplified variant overwrites the cache entry for its userId
with latitude 91, and the richer variant issues exactly one sink insert
carrying latitude 91. -/
theorem claim_no_validation_amended (st : SimpleState) (sid : SocketId)
    (s : RawSample) (h : s.lat = 91) (uid : Int) (tid : String) (oc : SinkOutcome) :
    (simpleStep st (.update_position sid s)).1.dataInMemory s.userId
        = some { lat := s.lat, lng := s.lng } ∧
    (update_position_rich { userId := uid, tripId := tid, lat := s.lat, lng := s.lng }
        oc).1.sinkCalls
      = [{ user_id := uid, trip_id := tid, lat := s.lat, lng := s.lng }] := by
  constructor
  · simp [simpleStep, update_position_simple]
  · cases oc <;> rfl

theorem claim_no_validation_amended_witness :
    (simpleStep simpleInit
        (.update_position "s1" { userId := "u1", lat := 91, lng := 20 })).1.dataInMemory "u1"
      = some { lat := 91, lng := 20 } ∧
    (update_position_rich { userId := 7, tripId := "t1", lat := 91, lng := 20 }
        .ok).1.sinkCalls
      = [{ user_id := 7, trip_id := "t1", lat := 91, lng := 20 }] :=
  claim_no_validation_amended simpleInit "s1"
    { userId := "u1", lat := 91, lng := 20 } rfl 7 "t1" .ok

/-- C9: ingesting a sample for user `u` touches at most the cache entry
keyed `u`: every other user's entry, the socket data and the connection
registry are exactly as before. -/
theorem claim_ingest_frame (st : SimpleState) (sid : SocketId) (s : RawSample)
    (v : String) (hv : v ≠ s.userId) :
    (simpleStep st (.update_position sid s)).1.dataInMemory v = st.dataInMemory v ∧
    (simpleStep st (.update_position sid s)).1.socketData = st.socketData ∧
    (simpleStep st (.update_position sid s)).1.connected = st.connected := by
  refine ⟨?_, rfl, rfl⟩
  simp [simpleStep, update_position_simple, hv]

theorem claim_ingest_frame_witness :
    (simpleStep simpleInit
        (.update_position "s1" { userId := "u1", lat := 10, lng := 20 })).1.dataInMemory "v1"
      = simpleInit.dataInMemory "v1" ∧
    (simpleStep simpleInit
        (.update_position "s1" { userId := "u1", lat := 10, lng := 20 })).1.socketData
      = simpleInit.socketData ∧
    (simpleStep simpleInit
        (.update_position "s1" { userId := "u1", lat := 10, lng := 20 })).1.connected
      = simpleInit.connected :=
  claim_ingest_frame simpleInit "s1" { userId := "u1", lat := 10, lng := 20 } "v1"
    (by decide)

/-- C4: for every ingested sample and every sink outcome, exactly one sink
insert is issued (no retry), the handler terminates normally
(`Except.ok ()`, so the failure never surfaces to the client), and the
console log is exactly the receipt line followed by one error line when and
only when the insert failed: the failure is logged and nothing else. -/
theorem claim_sink_failure_fire_and_forget (data : RichSample) (oc : SinkOutcome) :
    ((update_position_rich data oc).1.sinkCalls).length = 1 ∧
    (update_position_rich data oc).2 = .ok () ∧
    (update_position_rich data oc).1.logs =
      .recebido data ::
        (match oc with
         | .ok => []
         | .errValue m => [.erroAoSalvarCoordenada m]
         | .thrown m => [.erroInternoAoSalvar m]) := by
  cases oc <;> exact ⟨rfl, rfl, rfl⟩

/-- C6: processing an `update_position` message emits nothing in either
variant: the simplified step's delivery list is empty (the
`palete_movimentado` broadcast is commented out) and the richer handler's
emit trace is empty, so in particular no `palete_movimentado` reaches any
connection. -/
theorem claim_no_rebroadcast (st : SimpleState) (sid : SocketId) (s : RawSample)
    (data : RichSample) (oc : SinkOutcome) :
    (simpleStep st (.update_position sid s)).2 = [] ∧
    (update_position_rich data oc).1.emits = [] := by
  exact ⟨rfl, by cases oc <;> rfl⟩

/-- C10: the richer variant's `update_position` handler never lets an
exception escape to the socket layer: whatever the sink does (success,
returned error object, or thrown exception), the handler's result is
`Except.ok ()`. -/
theorem claim_rich_handler_no_exception (data : RichSample) (oc : SinkOutcome) :
    (update_position_rich data oc).2 = .ok () := by
  cases oc <;> rfl

/-- Every step of the richer variant leaves `dataInMemory` untouched:
no handler in `src/src/server.ts` ever writes to it. -/
theorem richStep_preserves_dataInMemory (st : RichState) (ev : RichEvent) :
    ((richStep st ev).1).dataInMemory = st.dataInMemory := by
  cases ev <;> rfl

/-- C8: in the richer variant, after any sequence of events from process
start, the cache `dataInMemory` is still empty for every user id: the
`update_position` handler only appends to the Durable Sink. -/
theorem claim_rich_cache_never_written (evs : List RichEvent) (u : String) :
    (richRun evs).dataInMemory u = none := by
  have key : ∀ (l : List RichEvent) (st : RichState),
      (l.foldl (fun st ev => (richStep st ev).1) st).dataInMemory = st.dataInMemory := by
    intro l
    induction l with
    | nil => intro st; rfl
    | cons ev l ih =>
        intro st
        rw [List.foldl_cons, ih, richStep_preserves_dataInMemory]
  show (richRun evs).dataInMemory u = none
  unfold richRun
  rw [key]
  rfl

/-- Running the simplified variant from any state, the cache entry for `u`
is the fold of the per-event replacement over the starting entry. -/
theorem run_cache_from (evs : List SimpleEvent) (u : String) : ∀ st : SimpleState,
    (evs.foldl (fun st ev => (simpleStep st ev).1) st).dataInMemory u
      = evs.foldl
          (fun acc ev =>
            match ev with
            | .update_position _ data =>
                if u = data.userId then some { lat := data.lat, lng := data.lng } else acc
            | _ => acc)
          (st.dataInMemory u) := by
  induction evs with
  | nil => intro st; rfl
  | cons ev evs ih =>
      intro st
      rw [List.foldl_cons, List.foldl_cons, ih]
      congr 1
      cases ev with
      | connect sid => rfl
      | update_position sid data => rfl
      | disconnect sid => rfl

/-- C5 fails on the code as stated: after the run `cexEvents`, in which the
only sample for user "u1" has latitude 91 and so is not valid in the spec's
sense, a cache entry for "u1" nevertheless exists — contradicting "no entry
exists for a user id for which no prior valid sample was ingested". -/
theorem claim_cache_invariant_counterexample :
    ingestedValidFor cexEvents "u1" = false ∧
    (simpleRun cexEvents).dataInMemory "u1" ≠ none := by
  decide

/-- C5 amended (the qualifier "valid" must be dropped, since the code
ingests out-of-range samples like any other): after every event sequence
the cache holds, per user id `u`, exactly the coordinates of the last
ingested sample carrying `u` — replaced whole on each sample, never merged,
at most one entry per user id, and no entry when no sample at all for `u`
was ingested. -/
theorem claim_cache_invariant_amended (evs : List SimpleEvent) (u : String) :
    (simpleRun evs).dataInMemory u = lastCoordFor evs u := by
  unfold simpleRun lastCoordFor
  exact run_cache_from evs u simpleInit

/-- The deliveries of the resetar broadcast that target `c` are as many as
the occurrences of `c` in the connected list. -/
theorem resetar_deliveries_count (l : List SocketId) (c : SocketId) :
    ((l.map (fun c0 => ({ target := c0, msg := .erro_sistema resetarMsg } : Delivery))).filter
        (fun d => d.target == c)).length
      = l.count c := by
  induction l with
  | nil => rfl
  | cons a l ih =>
      by_cases h : a = c
      · subst h
        simp [List.filter_cons, List.count_cons, ih]
      · simp [List.filter_cons, List.count_cons, h, ih]

/-- C7: one invocation of `POST /api/admin/resetar` delivers exactly one
message to each currently connected socket and none to a socket that is not
connected (one that disconnected before the trigger), every delivered
message is the `erro_sistema` notice, and the HTTP response is `{ok: true}`.
The connected list has no duplicates since socket ids are process-unique. -/
theorem claim_resetar_broadcast (st : SimpleState) (c : SocketId)
    (hnd : st.connected.Nodup) :
    (c ∈ st.connected → (deliveriesTo (resetar st).2.1 c).length = 1) ∧
    (c ∉ st.connected → (deliveriesTo (resetar st).2.1 c).length = 0) ∧
    (∀ d ∈ (resetar st).2.1, d.msg = .erro_sistema resetarMsg) ∧
    (resetar st).2.2 = { ok := true } := by
  refine ⟨?_, ?_, ?_, rfl⟩
  · intro hc
    rw [show (resetar st).2.1
          = st.connected.map
              (fun c0 => ({ target := c0, msg := .erro_sistema resetarMsg } : Delivery))
        from rfl]
    unfold deliveriesTo
    rw [resetar_deliveries_count]
    exact List.count_eq_one_of_mem hnd hc
  · intro hc
    unfold deliveriesTo
    rw [show (resetar st).2.1
          = st.connected.map
              (fun c0 => ({ target := c0, msg := .erro_sistema resetarMsg } : Delivery))
        from rfl]
    rw [resetar_deliveries_count]
    exact List.count_eq_zero.mpr hc
  · intro d hd
    rcases List.mem_map.mp hd with ⟨c0, _, rfl⟩
    rfl

theorem claim_resetar_broadcast_witness :
    (deliveriesTo (resetar twoClientsState).2.1 "a").length = 1 ∧
    (deliveriesTo (resetar twoClientsState).2.1 "gone").length = 0 ∧
    (resetar twoClientsState).2.2 = { ok := true } := by
  have h := claim_resetar_broadcast twoClientsState "a" (by decide)
  have h2 := claim_resetar_broadcast twoClientsState "gone" (by decide)
  exact ⟨h.1 (by decide), h2.2.1 (by decide), h.2.2.2⟩

end ExpressRender
